import Mathlib

/-!
Verification of the vuesic DAW's transport / project model against its
natural-language specification.

The TypeScript sources are shallowly embedded: classes become structures,
mutating methods become functions returning the updated value, JS `throw`
becomes an explicit error constructor, and JS numbers (used here only for
musical times, values and indices) become `ℚ` (rows and ids are `Nat`).
Object identity of looked-up entities (instruments, patterns, samples,
automation clips) is modelled by their `id` string, which is faithful
because every entity receives a fresh uuid.
-/

namespace Vuesic

/-- A JS exception value: its constructor name (`Error`, `ReferenceError`,
`TypeError`, ...) and its message. -/
structure JSError where
  name : String
  message : String
deriving DecidableEq

/-! ## Storybook-layer models (`src/storybook.ts`) -/

namespace SB

/-- Modelled from the spec: the Transport's Event Registry
(`@/modules/audio/transport` is not part of the sources) — an append/remove
mapping from opaque event id to scheduled-event metadata, owned by one
Transport; `schedule` returns a fresh id, ids are never reused. Callback and
time metadata are elided: the claims below depend only on which ids are live. -/
structure Transport where
  nextId : Nat
  live : List Nat
deriving DecidableEq

/-- Modelled from the spec: `schedule` registers a one-shot callback and
returns the fresh event id. -/
def Transport.schedule (t : Transport) : Nat × Transport :=
  (t.nextId, ⟨t.nextId + 1, t.live ++ [t.nextId]⟩)

/-- Modelled from the spec: `clear(eventId)` cancels a previously scheduled
event; it is a silent no-op when the id is no longer (or was never) live. -/
def Transport.clear (t : Transport) (id : Nat) : Transport :=
  ⟨t.nextId, t.live.filter (fun j => j ≠ id)⟩

/-- `Instrument` (storybook layer), reduced to the identity fields the
claims need; the synthesis members are opaque audio collaborators. -/
structure Instrument where
  id : String
  name : String
deriving DecidableEq

/-- `Note extends Element`: row, duration and time plus the optional
`eventId` of its live scheduled event (`undefined` before scheduling). -/
structure Note where
  row : Nat
  duration : ℚ
  time : ℚ
  eventId : Option Nat := none
deriving DecidableEq

/-- `Element.remove(transport)`: if `eventId !== undefined`, the transport
clears that event. The element itself is returned unchanged — the source
does not write to `this.eventId`. -/
def Note.remove (e : Note) (t : Transport) : Note × Transport :=
  match e.eventId with
  | some id => (e, t.clear id)
  | none => (e, t)

/-- `Note.schedule(transport)`: registers the note's callback and stores the
returned event id in `this.eventId`. -/
def Note.schedule (e : Note) (t : Transport) : Note × Transport :=
  let s := t.schedule
  ({ e with eventId := some s.1 }, s.2)

/-- `Score`, reduced to its reference fields. `instrument` is definitely
assigned in TS (`instrument!`); before `init` runs it is `undefined`, which
is modelled by `Option`. -/
structure Score where
  id : String
  instrumentId : String
  instrument : Option Instrument := none
deriving DecidableEq

/-- `Score.init(lookup)`: if `instrumentId` is absent from the lookup the
source runs `throw Error(...)` — a plain `Error`, whose message interpolates
the id — otherwise it binds `this.instrument` to the looked-up instrument. -/
def Score.init (s : Score) (lookup : List (String × Instrument)) :
    Except JSError Score :=
  match lookup.lookup s.instrumentId with
  | none => .error ⟨"Error", s.instrumentId ++ " not in lookup"⟩
  | some i => .ok { s with instrument := some i }

/-- An automation `Point`: time, value, and the event id handed back by the
control signal when the point was scheduled. -/
structure Point where
  time : ℚ
  value : ℚ
  eventId : Option Nat := none
deriving DecidableEq

/-- `Point.create(time, value)`. -/
def Point.create (time value : ℚ) : Point :=
  { time := time, value := value }

/-- Modelled from the spec: the `TransportTimelineSignal` control
collaborator (`@/modules/audio` is not part of the sources) exposes
`add(time, value) -> eventId`; it owns the breakpoint registry. -/
structure ControlSignal where
  nextId : Nat := 0
  breakpoints : List (Nat × ℚ × ℚ) := []
deriving DecidableEq

/-- Modelled from the spec: `control.add` registers a breakpoint and returns
its fresh event id. -/
def ControlSignal.add (c : ControlSignal) (time value : ℚ) :
    Nat × ControlSignal :=
  (c.nextId, ⟨c.nextId + 1, c.breakpoints ++ [(c.nextId, time, value)]⟩)

/-- Modelled from the spec: the Clock Converter maps beats to the
scheduler's fixed-resolution ticks (`toTickTime` lives in the absent
`./utils`); the resolution constant is opaque to every claim. -/
def toTickTime (beats : ℚ) : ℚ :=
  beats * 192

/-- `AutomationClip` (storybook layer): the ordered points list, the clip's
context tag and context id, and its control signal. -/
structure AutomationClip where
  points : List Point := []
  context : String
  contextId : String
  control : ControlSignal := {}
deriving DecidableEq

/-- `AutomationClip.schedule(point)` (private): adds the point's breakpoint
to the control signal and stores the returned event id on the point. -/
def AutomationClip.schedulePoint (ac : AutomationClip) (p : Point) :
    AutomationClip × Point :=
  let r := ac.control.add (toTickTime p.time) p.value
  ({ ac with control := r.2 }, { p with eventId := some r.1 })

/-- `AutomationClip.add(time, value)`: creates a point, schedules it, and
pushes it onto the points list. -/
def AutomationClip.add (ac : AutomationClip) (time value : ℚ) :
    AutomationClip :=
  let point := Point.create time value
  let r := ac.schedulePoint point
  { r.1 with points := r.1.points ++ [r.2] }

/-- `AutomationClip.create(length, signal, context, id)`: a fresh clip
(`init` connects the signal and schedules the — empty — points list), then
`add(0, signal.value)` and `add(length, signal.value)`. `signalValue` stands
for `signal.value`, the signal's current value. -/
def AutomationClip.create (length signalValue : ℚ)
    (context contextId : String) : AutomationClip :=
  let ac : AutomationClip := { context := context, contextId := contextId }
  let ac := ac.add 0 signalValue
  ac.add length signalValue

end SB

/-! ## Project-layer models (`src/models/channel.ts` and the project
extension source) -/

namespace Proj

/-- A `Track` of the master playlist: `Track.create` gives it a name and an
unmuted mute ref (`tr.mute.value` is read through the ref). -/
structure Track where
  name : String
  mute : Bool
deriving DecidableEq

/-- `Track.create(i)`. -/
def Track.create (i : Nat) : Track :=
  { name := "Track " ++ toString i, mute := false }

/-- A scheduled event as seen by the transport's filter chain: the filter
installed by `defineAPI` only reads `event.row`. -/
structure ScheduledEvent where
  id : Nat
  time : ℚ
  row : Nat
deriving DecidableEq

/-- `mutedTracks` (a `computed` in `defineAPI`): pair each track with its
index, keep the muted ones, and keep only the indices (the JS `Set` is
modelled by the index list, membership being all the filter consults). -/
def mutedTracks (tracks : List Track) : List Nat :=
  ((tracks.enum.filter (fun p => p.2.mute)).map (fun p => p.1))

/-- The filter added to the master transport:
`(event) => !mutedTracks.value.has(event.row)`. -/
def muteFilter (tracks : List Track) (event : ScheduledEvent) : Bool :=
  !((mutedTracks tracks).contains event.row)

/-- The serialized shape of a channel effect. Modelled from the spec:
`models/filters/effect.ts` is not part of the sources; §6 says persisted
entities accept a matching constructor payload and `serialize()` reproduces
the §3 field shapes. -/
structure IEffect where
  slot : Nat
  type : String
  id : String
deriving DecidableEq

/-- Modelled from the spec: the `Effect` entity, holding its constructor
payload. -/
structure Effect where
  payload : IEffect
deriving DecidableEq

/-- Modelled from the spec: `Effect.serialize()` reproduces the payload. -/
def Effect.serialize (e : Effect) : IEffect :=
  e.payload

/-- `IChannel = ChannelTypeRequired ∩ ChannelTypePartial`
(`models/channel.ts`). -/
structure IChannel where
  number : ℚ
  name : String
  id : String
  pan : ℚ
  volume : ℚ
  mute : Bool
  effects : List IEffect
deriving DecidableEq

/-- The `Channel` class: the constructor copies `number`, `name`, `id`,
creates the `pan` / `volume` signal refs from `i.pan` / `i.volume`, the
`mute` ref from `i.mute`, and maps `i.effects` through the `Effect`
constructor. Audio graph nodes (gain, panner, meters) are opaque
collaborators and are elided. -/
structure Channel where
  number : ℚ
  name : String
  id : String
  pan : ℚ
  volume : ℚ
  mute : Bool
  effects : List Effect
deriving DecidableEq

/-- `new Channel(i)`. -/
def Channel.ofI (i : IChannel) : Channel :=
  { number := i.number
    name := i.name
    id := i.id
    pan := i.pan
    volume := i.volume
    mute := i.mute
    effects := i.effects.map Effect.mk }

/-- `Channel.create(num)` — `uuid.v4()` is modelled by a deterministic
fresh string; no claim depends on the generated id's value. -/
def Channel.create (num : Nat) : Channel :=
  Channel.ofI
    { number := num
      name := "Channel " ++ toString num
      id := "channel-uuid-" ++ toString num
      pan := 0
      volume := 0.7
      mute := false
      effects := [] }

/-- `Channel.serialize()`. -/
def Channel.serialize (c : Channel) : IChannel :=
  { number := c.number
    name := c.name
    id := c.id
    pan := c.pan
    volume := c.volume
    mute := c.mute
    effects := c.effects.map Effect.serialize }

/-- The serialized instrument tag (`'synth' | 'soundfont'`). -/
inductive InstrKind
  | synth
  | soundfont
deriving DecidableEq

/-- An `Instrument` (`Synth | Soundfont`), reduced to its identity fields;
the synthesis and audio-graph members are opaque collaborators. -/
structure Instrument where
  instrument : InstrKind
  id : String
  name : String
deriving DecidableEq

/-- `Synth.create(name)` — `uuid.v4()` modelled by a deterministic fresh
string. -/
def Synth.create (name : String) : Instrument :=
  { instrument := .synth, id := "synth-uuid-" ++ name, name := name }

/-- A resolved `Score`: its id, the serialized `instrumentId`, and the
instrument object resolved through the lookup (object identity is modelled
by value — entity ids are fresh uuids, so values coincide exactly when the
references do). -/
structure Score where
  id : String
  instrumentId : String
  instrument : Instrument
deriving DecidableEq

/-- A resolved `Pattern`: id, name, and its scores (the pattern's private
transport is an opaque collaborator). -/
structure Pattern where
  id : String
  name : String
  scores : List Score
deriving DecidableEq

/-- `Pattern.create(name)`. -/
def Pattern.create (name : String) : Pattern :=
  { id := "pattern-uuid-" ++ name, name := name, scores := [] }

/-- A `Sample`: its id and file path (the audio buffer is opaque). -/
structure Sample where
  id : String
  path : String
deriving DecidableEq

/-- `ClipContext` restricted to the two tags `load` produces. -/
inductive ClipCtx
  | channel
  | instrument
deriving DecidableEq

/-- The project-layer `AutomationClip` (`@/models` is not part of the
sources). Modelled from the spec: an ordered-by-time sequence of points
plus the clip's automation target (`context`, `contextId`, `attr`). -/
structure AutomationClip where
  id : String
  context : ClipCtx
  contextId : String
  attr : String
  points : List (ℚ × ℚ)
deriving DecidableEq

/-- Modelled from the spec: `AutomationClip.create(length, signal, context,
id, attr)` produces a clip whose points are the start point `(0, v)` and
end point `(length, v)`, `v` being the signal's current value. -/
def AutomationClip.create (length signalValue : ℚ) (context : ClipCtx)
    (contextId attr : String) : AutomationClip :=
  { id := "clip-uuid-" ++ contextId ++ "-" ++ attr
    context := context
    contextId := contextId
    attr := attr
    points := [(0, signalValue), (length, signalValue)] }

/-- Modelled from the spec: a clip's `duration` spans from its start point
to its end point — the greatest point time. -/
def AutomationClip.duration (c : AutomationClip) : ℚ :=
  (c.points.map (fun p => p.1)).foldl max 0

/-- The discriminant of a placed playlist element
(`'automation' | 'pattern' | 'sample'`). -/
inductive ElKind
  | automation
  | pattern
  | sample
deriving DecidableEq

/-- A placed element of the master playlist: its kind tag, the id of the
referenced entity (`el.element` reference identity modelled by the
entity's uuid), and its placement. -/
structure PlacedElement where
  type : ElKind
  refId : String
  time : ℚ
  row : Nat
  duration : ℚ
deriving DecidableEq

/-- The master `Playlist`: the flat collection of placed elements (its
transport is represented by the filter results proved about `muteFilter`). -/
structure Playlist where
  elements : List PlacedElement
deriving DecidableEq

/-- The `automatable` argument of `createAutomationClip`: a `Channel` or an
`Instrument` (`automatable instanceof Channel` decides the context tag). -/
inductive Automatable
  | channel (c : Channel)
  | instrument (i : Instrument)
deriving DecidableEq

/-- `automatable.id`. -/
def Automatable.id : Automatable → String
  | .channel c => c.id
  | .instrument i => i.id

/-- `automatable instanceof Channel ? 'channel' : 'instrument'`. -/
def Automatable.ctx : Automatable → ClipCtx
  | .channel _ => .channel
  | .instrument _ => .instrument

/-- The occupancy test of `createAutomationClip`: the proposed `start` or
`end` lies strictly inside the element's `(time, time + duration)`. -/
def hitsInterval (start stop : ℚ) (el : PlacedElement) : Bool :=
  decide ((start > el.time ∧ start < el.time + el.duration) ∨
          (stop > el.time ∧ stop < el.time + el.duration))

/-- The `available` array: `Array(tracks.length).fill(true)`, then each
element whose interval is hit marks its row unavailable. (`List.set`
ignores an out-of-range `el.row` where JS would grow the array; the grown
tail is never `true`, so the subsequent first-`true` search is unaffected.) -/
def availableRows (numTracks : Nat) (elements : List PlacedElement)
    (start stop : ℚ) : List Bool :=
  elements.foldl
    (fun avail el =>
      if hitsInterval start stop el then avail.set el.row false else avail)
    (List.replicate numTracks true)

/-- The outcome of `createAutomationClip`: the automation-clip collection,
the master playlist's elements, and the warnings shown via
`notify.warning`. -/
structure CreateClipState where
  automationClips : List AutomationClip
  elements : List PlacedElement
  warnings : List String
deriving DecidableEq

/-- `createAutomationClip(payload)` from the project extension: scan
`master.elements` for occupied rows over `[start, end)`, pick the first
available row (`for ... of available.entries()` with `break`), warn and
return untouched on exhaustion, otherwise push exactly one clip and one
placed element. `signalValue` stands for `automatable[key].value`. -/
def createAutomationClip (tracks : List Track) (master : List PlacedElement)
    (clips : List AutomationClip) (automatable : Automatable) (key : String)
    (signalValue : ℚ) (start stop : ℚ) : CreateClipState :=
  match (availableRows tracks.length master start stop).findIdx?
      (fun b => b) with
  | none => ⟨clips, master, ["Unable to create automation clip"]⟩
  | some row =>
    let length := stop - start
    let clip := AutomationClip.create length signalValue automatable.ctx
      automatable.id key
    let placed : PlacedElement :=
      ⟨.automation, clip.id, start, row, clip.duration⟩
    ⟨clips ++ [clip], master ++ [placed], []⟩

/-- The index-collection loop `forEach((x, ind) => { if (p x) toRemove.push(ind) })`:
the indices satisfying `p`, in ascending order. -/
def collectIdxs (p : α → Bool) : List α → List Nat
  | [] => []
  | a :: l =>
    if p a then 0 :: (collectIdxs p l).map (· + 1)
    else (collectIdxs p l).map (· + 1)

/-- The removal loop `for (const ind of reverse(toRemove)) arr.splice(ind, 1)`. -/
def spliceEach (l : List α) (idxs : List Nat) : List α :=
  idxs.reverse.foldl (fun acc i => acc.eraseIdx i) l

/-- The `instruments.onDidRemove` handler of `defineAPI`: in every pattern,
collect the indices of scores whose `instrument` is in the deleted set and
splice them out in reverse order. -/
def removeScoresForInstruments (deleted : List Instrument)
    (patterns : List Pattern) : List Pattern :=
  patterns.map fun pat =>
    let idxs := collectIdxs (fun s => deleted.contains s.instrument) pat.scores
    { pat with scores := spliceEach pat.scores idxs }

/-- `removeElements(type, removed)` of `defineAPI`: collect the indices of
master-playlist elements of the removed kind whose referenced entity is in
the removed set (`set.has(el.element)`, identity modelled by `refId`), and
splice them out in reverse order. -/
def removeElements (ty : ElKind) (removedIds : List String)
    (elements : List PlacedElement) : List PlacedElement :=
  spliceEach elements
    (collectIdxs (fun el => el.type == ty && removedIds.contains el.refId)
      elements)

/-! Serialized (`IProject`) input shapes consumed by `load`. -/

/-- A serialized score: its id and instrument reference. -/
structure IScore where
  id : String
  instrumentId : String
deriving DecidableEq

/-- A serialized pattern. -/
structure IPattern where
  id : String
  name : String
  scores : List IScore
deriving DecidableEq

/-- A serialized instrument (`SynthType | SoundfontType`), reduced to the
fields `load` consults. -/
structure IInstrument where
  instrument : InstrKind
  id : String
  name : String
deriving DecidableEq

/-- A serialized sample. -/
structure ISample where
  id : String
  path : String
deriving DecidableEq

/-- A serialized automation clip: its id and its automation target. -/
structure IAutomationClip where
  id : String
  context : ClipCtx
  contextId : String
  attr : String
  points : List (ℚ × ℚ)
deriving DecidableEq

/-- A serialized playlist element: kind tag, referenced entity id, and
placement. -/
structure IPlaylistElement where
  type : ElKind
  id : String
  time : ℚ
  row : Nat
  duration : ℚ
deriving DecidableEq

/-- The serialized master playlist. -/
structure IPlaylist where
  elements : List IPlaylistElement
deriving DecidableEq

/-- A serialized track. -/
structure ITrack where
  name : String
  mute : Bool
deriving DecidableEq

/-- `ProjectType`: the serialized project consumed by `load`. -/
structure IProject where
  id : String
  stepsPerBeat : ℚ
  beatsPerMeasure : ℚ
  bpm : ℚ
  name : String
  instruments : List IInstrument
  patterns : List IPattern
  samples : List ISample
  master : IPlaylist
  automationClips : List IAutomationClip
  channels : List IChannel
  tracks : List ITrack
deriving DecidableEq

/-- `new Synth(i)` / `new Soundfont(..., i)`. -/
def Instrument.ofI (i : IInstrument) : Instrument :=
  ⟨i.instrument, i.id, i.name⟩

/-- `new Track(i)`. -/
def Track.ofI (i : ITrack) : Track :=
  ⟨i.name, i.mute⟩

/-- `new Sample(buffer, i)` (buffer elided: a missing audio file only
produces a warning toast, never a load error). -/
def Sample.ofI (i : ISample) : Sample :=
  ⟨i.id, i.path⟩

/-- `new AutomationClip(signal, i)`. -/
def AutomationClip.ofI (i : IAutomationClip) : AutomationClip :=
  ⟨i.id, i.context, i.contextId, i.attr, i.points⟩

/-- `makeLookup` (`@/lib/std`) followed by indexing: find the entity with
the given id. -/
def makeLookup (getId : α → String) (xs : List α) (key : String) : Option α :=
  xs.find? (fun x => getId x == key)

/-- Modelled from the spec: the automatable control-signal attributes a
`Channel` exposes (`(channelLookup[contextId] as any)[attr]` is truthy
exactly for these); any other attr yields `undefined`. -/
def Channel.signalAttrs : List String :=
  ["volume", "pan"]

/-- Modelled from the spec: the automatable control-signal attributes an
instrument exposes. -/
def Instrument.signalAttrs : List String :=
  ["volume", "pan"]

/-- `new Score(transport, instrumentLookup[iScore.instrumentId], iScore)`;
the id-existence check of `load` has already guaranteed the lookup hit, so
the default mirrors TS's unchecked indexing. -/
def Score.ofI (instruments : List Instrument) (i : IScore) : Score :=
  { id := i.id
    instrumentId := i.instrumentId
    instrument :=
      (makeLookup Instrument.id instruments i.instrumentId).getD
        ⟨.synth, "", ""⟩ }

/-- `new Pattern(iPattern, transport, scores)`. -/
def Pattern.ofI (instruments : List Instrument) (i : IPattern) : Pattern :=
  { id := i.id, name := i.name
    scores := i.scores.map (Score.ofI instruments) }

/-- The first check of `load`: the first score (pattern order, then score
order) whose `instrumentId` misses the instrument lookup produces the error
message; `none` when every reference resolves. -/
def scoreCheckMsg (instruments : List Instrument)
    (patterns : List IPattern) : Option String :=
  patterns.findSome? fun iPattern =>
    iPattern.scores.findSome? fun iScore =>
      if (makeLookup Instrument.id instruments iScore.instrumentId).isNone
      then
        some ("Instrument from score " ++ iScore.id ++
          " was not found in instrument list.")
      else none

/-- The automation-clip construction inside `load`:
`signal = lookup[contextId][attr]` throws a `TypeError` when the context id
misses the lookup (indexing `undefined`), and the explicit
`throw Error('Unable to parse automation clip')` fires when the attr yields
no signal. -/
def buildClip (channels : List Channel) (instruments : List Instrument)
    (ic : IAutomationClip) : Except String AutomationClip :=
  match ic.context with
  | .channel =>
    match makeLookup Channel.id channels ic.contextId with
    | none => .error "TypeError: Cannot read properties of undefined"
    | some _ =>
      if ic.attr ∈ Channel.signalAttrs then .ok (AutomationClip.ofI ic)
      else .error "Unable to parse automation clip"
  | .instrument =>
    match makeLookup Instrument.id instruments ic.contextId with
    | none => .error "TypeError: Cannot read properties of undefined"
    | some _ =>
      if ic.attr ∈ Instrument.signalAttrs then .ok (AutomationClip.ofI ic)
      else .error "Unable to parse automation clip"

/-- One iteration of the playlist-element loop of `load`: a missing
referenced id produces the branch's error message, otherwise the placed
element (`create*Prototype(...)(mTransport).copy()`). -/
def buildElement (clips : List AutomationClip) (patterns : List Pattern)
    (samples : List Sample) (ie : IPlaylistElement) :
    Except String PlacedElement :=
  match ie.type with
  | .automation =>
    match makeLookup AutomationClip.id clips ie.id with
    | none =>
      .error ("An Automation clip from the Playlist was not found (" ++
        ie.id ++ ").")
    | some _ => .ok ⟨.automation, ie.id, ie.time, ie.row, ie.duration⟩
  | .pattern =>
    match makeLookup Pattern.id patterns ie.id with
    | none =>
      .error ("A Pattern from the Playlist was not found (" ++ ie.id ++ ").")
    | some _ => .ok ⟨.pattern, ie.id, ie.time, ie.row, ie.duration⟩
  | .sample =>
    match makeLookup Sample.id samples ie.id with
    | none =>
      .error ("A sample from the Playlist was not found (" ++ ie.id ++ ").")
    | some _ => .ok ⟨.sample, ie.id, ie.time, ie.row, ie.duration⟩

/-- The fully linked project handed to `defineAPI`. -/
structure LoadedProject where
  bpm : ℚ
  stepsPerBeat : ℚ
  beatsPerMeasure : ℚ
  name : String
  id : String
  patterns : List Pattern
  instruments : List Instrument
  channels : List Channel
  tracks : List Track
  master : Playlist
  samples : List Sample
  automationClips : List AutomationClip
deriving DecidableEq

/-- `emptyProject()`: the default fallback project. -/
def emptyProject : LoadedProject :=
  { id := "project-uuid-0"
    bpm := 120
    stepsPerBeat := 4
    beatsPerMeasure := 4
    name := ""
    master := ⟨[]⟩
    patterns := [Pattern.create "Pattern 0"]
    instruments := [Synth.create "Synth 0"]
    channels := (List.range 10).map Channel.create
    tracks := (List.range 21).map Track.create
    samples := []
    automationClips := [] }

/-- What `load` can do: return `InitializationSuccess`, return
`InitializationError` (whose `project` is the fallback), or let a JS
exception escape the load boundary. -/
inductive LoadResult
  | success (project : LoadedProject)
  | error (message : String) (project : LoadedProject)
  | thrown (message : String)
deriving DecidableEq

/-- `load(iProject)`: construct channels/instruments/tracks, check every
score's instrument reference (first failure → tagged error with
`emptyProject()`), construct patterns and samples, construct automation
clips (a bad context/attr throws), then link every playlist element (first
missing reference → tagged error with `emptyProject()`), and finally
assemble the success project. The order of the stages follows the source. -/
def load (i : IProject) : LoadResult :=
  let channels := i.channels.map Channel.ofI
  let instruments := i.instruments.map Instrument.ofI
  let tracks := i.tracks.map Track.ofI
  match scoreCheckMsg instruments i.patterns with
  | some msg => .error msg emptyProject
  | none =>
    let patterns := i.patterns.map (Pattern.ofI instruments)
    let samples := i.samples.map Sample.ofI
    match i.automationClips.mapM (buildClip channels instruments) with
    | .error msg => .thrown msg
    | .ok automationClips =>
      match i.master.elements.mapM
          (buildElement automationClips patterns samples) with
      | .error msg => .error msg emptyProject
      | .ok elements =>
        .success
          { bpm := i.bpm
            stepsPerBeat := i.stepsPerBeat
            beatsPerMeasure := i.beatsPerMeasure
            name := i.name
            id := i.id
            patterns := patterns
            instruments := instruments
            channels := channels
            tracks := tracks
            master := ⟨elements⟩
            samples := samples
            automationClips := automationClips }

/-- A project whose playlist references a missing pattern id *and* whose
automation clip targets an attr that is no signal: the claim's antecedent
holds, yet `load` reaches the clip `throw` before the playlist check. -/
def c2FailingProject : IProject :=
  { id := "proj-0"
    stepsPerBeat := 4
    beatsPerMeasure := 4
    bpm := 120
    name := "broken"
    instruments := []
    patterns := []
    samples := []
    master := ⟨[⟨.pattern, "missing-pattern", 0, 0, 1⟩]⟩
    automationClips := [⟨"a0", .channel, "c0", "gain", []⟩]
    channels := [⟨0, "Channel 0", "c0", 0, 0.7, false, []⟩]
    tracks := [] }

/-- A project with a single score whose instrument reference is dangling:
`load` fails its first check. -/
def c10ErrorProject : IProject :=
  { id := "proj-1"
    stepsPerBeat := 4
    beatsPerMeasure := 4
    bpm := 140
    name := "dangling"
    instruments := []
    patterns := [⟨"p0", "Pattern 0", [⟨"s0", "missing-instrument"⟩]⟩]
    samples := []
    master := ⟨[]⟩
    automationClips := []
    channels := []
    tracks := [] }

/-- Three unmuted tracks, as in the spec's lane-exclusivity scenario. -/
def scenarioTracks : List Track :=
  [Track.create 0, Track.create 1, Track.create 2]

/-- Two placed elements spanning `[1, 5)` on rows 0 and 1. -/
def scenarioEls : List PlacedElement :=
  [⟨.pattern, "e0", 1, 0, 4⟩, ⟨.pattern, "e1", 1, 1, 4⟩]

/-- Erasing at every index in `js.map (· + 1)` leaves the head untouched. -/
theorem foldl_eraseIdx_map_succ (a : α) (l : List α) (js : List Nat) :
    (js.map (· + 1)).foldl (fun acc i => acc.eraseIdx i) (a :: l) =
      a :: js.foldl (fun acc i => acc.eraseIdx i) l := by
  induction js generalizing l with
  | nil => rfl
  | cons j t ih =>
    simp only [List.map_cons, List.foldl_cons, List.eraseIdx_cons_succ]
    exact ih (l.eraseIdx j)

/-- Splicing out (in reverse order) exactly the indices where `p` holds is
filtering by `¬p`. -/
theorem spliceEach_collectIdxs (p : α → Bool) (l : List α) :
    spliceEach l (collectIdxs p l) = l.filter (fun a => !p a) := by
  induction l with
  | nil => rfl
  | cons a t ih =>
    cases h : p a with
    | true =>
      have e1 : collectIdxs p (a :: t) = 0 :: (collectIdxs p t).map (· + 1) := by
        simp [collectIdxs, h]
      rw [spliceEach, e1, List.reverse_cons, ← List.map_reverse,
        List.foldl_append, foldl_eraseIdx_map_succ]
      simp only [List.foldl_cons, List.eraseIdx_cons_zero, List.foldl_nil]
      rw [show (List.foldl (fun acc i => acc.eraseIdx i) t
          (collectIdxs p t).reverse) = spliceEach t (collectIdxs p t)
        from rfl, ih]
      simp [List.filter_cons, h]
    | false =>
      have e1 : collectIdxs p (a :: t) = (collectIdxs p t).map (· + 1) := by
        simp [collectIdxs, h]
      rw [spliceEach, e1, ← List.map_reverse, foldl_eraseIdx_map_succ]
      rw [show (List.foldl (fun acc i => acc.eraseIdx i) t
          (collectIdxs p t).reverse) = spliceEach t (collectIdxs p t)
        from rfl, ih]
      simp [List.filter_cons, h]

end Proj

/-! ## Helper lemmas -/

/-- Membership in `mutedTracks` is exactly "the track at that index is
muted". -/
theorem Proj.mem_mutedTracks_iff (tracks : List Proj.Track) (i : Nat) :
    i ∈ Proj.mutedTracks tracks ↔
      ∃ tr, tracks[i]? = some tr ∧ tr.mute = true := by
  unfold Proj.mutedTracks
  constructor
  · rintro h
    rcases List.mem_map.mp h with ⟨p, hp, rfl⟩
    rcases List.mem_filter.mp hp with ⟨hmem, hmute⟩
    exact ⟨p.2, List.mk_mem_enum_iff_getElem?.mp hmem, by simpa using hmute⟩
  · rintro ⟨tr, hget, hmute⟩
    exact List.mem_map.mpr ⟨(i, tr), List.mem_filter.mpr
      ⟨List.mk_mem_enum_iff_getElem?.mpr hget, by simpa using hmute⟩, rfl⟩

/-- The occupancy fold preserves the array's length. -/
theorem Proj.availableRows_length (n : Nat) (els : List Proj.PlacedElement)
    (start stop : ℚ) : (Proj.availableRows n els start stop).length = n := by
  unfold Proj.availableRows
  suffices h : ∀ init : List Bool,
      (els.foldl
        (fun avail el =>
          if Proj.hitsInterval start stop el then avail.set el.row false
          else avail)
        init).length = init.length by
    rw [h]
    exact List.length_replicate ..
  intro init
  induction els generalizing init with
  | nil => rfl
  | cons el t ih =>
    rw [List.foldl_cons, ih]
    by_cases hh : Proj.hitsInterval start stop el = true <;> simp [hh]

/-- The occupancy fold marks index `r` `false` exactly when it started
`false` or some element with `row = r` hits the proposed interval. -/
theorem Proj.foldl_avail_getElem? (start stop : ℚ)
    (els : List Proj.PlacedElement) :
    ∀ (init : List Bool) (r : Nat),
      ((els.foldl
          (fun avail el =>
            if Proj.hitsInterval start stop el then avail.set el.row false
            else avail)
          init)[r]? = some false ↔
        (init[r]? = some false ∨ (r < init.length ∧
          ∃ el ∈ els, el.row = r ∧
            Proj.hitsInterval start stop el = true))) := by
  induction els with
  | nil =>
    intro init r
    simp
  | cons el t ih =>
    intro init r
    rw [List.foldl_cons, ih]
    by_cases hh : Proj.hitsInterval start stop el = true
    · rw [if_pos hh, List.getElem?_set, List.length_set]
      by_cases hrow : el.row = r
      · subst hrow
        by_cases hlen : el.row < init.length
        · simp only [if_pos rfl, if_pos hlen]
          constructor
          · intro _
            exact Or.inr ⟨hlen, el, List.mem_cons_self el t, rfl, hh⟩
          · intro _
            exact Or.inl rfl
        · simp only [if_pos rfl, if_neg hlen]
          constructor
          · rintro (h | ⟨hr, _⟩)
            · exact absurd h (by simp)
            · exact absurd hr hlen
          · rintro (h | ⟨hr, _⟩)
            · rcases List.getElem?_eq_some.mp h with ⟨hr, _⟩
              exact absurd hr hlen
            · exact absurd hr hlen
      · rw [if_neg hrow]
        constructor
        · rintro (h | ⟨hr, w, hw, hrw, hhw⟩)
          · exact Or.inl h
          · exact Or.inr ⟨hr, w, List.mem_cons_of_mem el hw, hrw, hhw⟩
        · rintro (h | ⟨hr, w, hw, hrw, hhw⟩)
          · exact Or.inl h
          · rcases List.mem_cons.mp hw with rfl | hw'
            · exact absurd hrw hrow
            · exact Or.inr ⟨hr, w, hw', hrw, hhw⟩
    · rw [if_neg hh]
      constructor
      · rintro (h | ⟨hr, w, hw, hrw, hhw⟩)
        · exact Or.inl h
        · exact Or.inr ⟨hr, w, List.mem_cons_of_mem el hw, hrw, hhw⟩
      · rintro (h | ⟨hr, w, hw, hrw, hhw⟩)
        · exact Or.inl h
        · rcases List.mem_cons.mp hw with rfl | hw'
          · exact absurd hhw hh
          · exact Or.inr ⟨hr, w, hw', hrw, hhw⟩

/-- A row reads occupied (`some false`) in `availableRows` exactly when it
is in range and some element on it hits the proposed interval. -/
theorem Proj.availableRows_false_iff (n : Nat)
    (els : List Proj.PlacedElement) (start stop : ℚ) (r : Nat) :
    (Proj.availableRows n els start stop)[r]? = some false ↔
      (r < n ∧ ∃ el ∈ els, el.row = r ∧
        Proj.hitsInterval start stop el = true) := by
  unfold Proj.availableRows
  rw [Proj.foldl_avail_getElem?]
  constructor
  · rintro (h | h)
    · rw [List.getElem?_replicate] at h
      by_cases hr : r < n
      · rw [if_pos hr] at h
        simp at h
      · rw [if_neg hr] at h
        simp at h
    · simpa [List.length_replicate] using h
  · intro h
    exact Or.inr (by simpa [List.length_replicate] using h)

/-- An in-range row reads free (`some true`) exactly when no element on it
hits the proposed interval. -/
theorem Proj.availableRows_true_iff (n : Nat)
    (els : List Proj.PlacedElement) (start stop : ℚ) (r : Nat)
    (hr : r < n) :
    ((Proj.availableRows n els start stop)[r]? = some true ↔
      ¬∃ el ∈ els, el.row = r ∧
        Proj.hitsInterval start stop el = true) := by
  have hlen := Proj.availableRows_length n els start stop
  have hsome : ∃ b, (Proj.availableRows n els start stop)[r]? = some b :=
    ⟨_, List.getElem?_eq_getElem (by rw [hlen]; exact hr)⟩
  rcases hsome with ⟨b, hb⟩
  cases b
  · rcases (Proj.availableRows_false_iff n els start stop r).mp hb
      with ⟨_, hex⟩
    rw [hb]
    constructor
    · intro h
      simp at h
    · intro hn
      exact absurd hex hn
  · rw [hb]
    constructor
    · intro _ hex
      have hfalse := (Proj.availableRows_false_iff n els start stop r).mpr
        ⟨hr, hex⟩
      rw [hb] at hfalse
      simp at hfalse
    · intro _
      rfl

/-! ## Theorem for claim C1 -/

/-- C1: while track `r` is the muted track (every other track unmuted), the
master transport's mute filter rejects exactly the events whose `row` is
`r`; after unmuting `r` (writing `mute := false` at index `r`) the filter
accepts every event again — the row-`r` events resume and events of other
rows are unaffected. The filter reads the current `mutedTracks` at
fire-time, so this holds per-event with no change to the registry. -/
theorem c1_mute_filter_exact (tracks : List Proj.Track) (r : Nat)
    (hr : r < tracks.length) (hmute : tracks[r].mute = true)
    (honly : ∀ j (hj : j < tracks.length), j ≠ r → tracks[j].mute = false)
    (e : Proj.ScheduledEvent) :
    (Proj.muteFilter tracks e = false ↔ e.row = r) ∧
    Proj.muteFilter (tracks.set r { tracks[r] with mute := false }) e
      = true := by
  have key : ∀ i, i ∈ Proj.mutedTracks tracks ↔ i = r := by
    intro i
    rw [Proj.mem_mutedTracks_iff]
    constructor
    · rintro ⟨tr, hget, hm⟩
      obtain ⟨hi, rfl⟩ := List.getElem?_eq_some.mp hget
      by_contra hne
      rw [honly i hi hne] at hm
      exact Bool.false_ne_true hm
    · intro h
      rw [h]
      exact ⟨tracks[r], List.getElem?_eq_some.mpr ⟨hr, rfl⟩, hmute⟩
  constructor
  · have : (Proj.muteFilter tracks e = false) ↔
        e.row ∈ Proj.mutedTracks tracks := by
      simp [Proj.muteFilter]
    rw [this, key]
  · have hnone : ∀ i, i ∉ Proj.mutedTracks
        (tracks.set r { tracks[r] with mute := false }) := by
      intro i hi
      rw [Proj.mem_mutedTracks_iff] at hi
      obtain ⟨tr, hget, hm⟩ := hi
      obtain ⟨hilen, rfl⟩ := List.getElem?_eq_some.mp hget
      rw [List.length_set] at hilen
      by_cases hir : i = r
      · subst hir
        rw [List.getElem_set_self] at hm
        exact Bool.false_ne_true hm
      · rw [List.getElem_set_ne (fun h => hir h.symm)] at hm
        rw [honly i hilen hir] at hm
        exact Bool.false_ne_true hm
    simp [Proj.muteFilter]
    exact hnone e.row

/-- C1 witness: two tracks, track 1 muted; the filter rejects a row-1 event
and, after unmuting, accepts it. -/
theorem c1_mute_filter_exact_witness :
    ((Proj.muteFilter [⟨"Track 0", false⟩, ⟨"Track 1", true⟩] ⟨0, 0, 1⟩
        = false ↔ (1 : Nat) = 1) ∧
      Proj.muteFilter ([⟨"Track 0", false⟩, ⟨"Track 1", true⟩].set 1
        ⟨"Track 1", false⟩) ⟨0, 0, 1⟩ = true) :=
  c1_mute_filter_exact [⟨"Track 0", false⟩, ⟨"Track 1", true⟩] 1
    (by decide) rfl (by decide) ⟨0, 0, 1⟩

/-! ## Theorem for claim C9 -/

/-- C9: reconstructing a `Channel` from any serialized channel value and
serializing it again reproduces the value structurally — `number`, `name`,
`id`, `effects`, `pan`, `volume` and `mute` all round-trip. -/
theorem c9_channel_roundtrip (i : Proj.IChannel) :
    (Proj.Channel.ofI i).serialize = i := by
  have h : ∀ l : List Proj.IEffect,
      (l.map Proj.Effect.mk).map Proj.Effect.serialize = l := by
    intro l
    induction l with
    | nil => rfl
    | cons a t ih => simp [Proj.Effect.serialize, ih]
  cases i with
  | mk number name id pan volume mute effects =>
    simp [Proj.Channel.ofI, Proj.Channel.serialize, h]

/-! ## Theorem for claim C2 -/

/-- C2 (code bug): on a project whose playlist element references a missing
pattern id — the claim's antecedent — but whose automation clip targets an
attr yielding no signal, `load` reaches the clip construction's
`throw Error('Unable to parse automation clip')` (marked
`FIXME remove this error and instead return error` in the source) before
the playlist check, so a structural error escapes the load boundary instead
of the tagged error result the claim requires. -/
theorem c2_load_throws_past_boundary :
    Proj.c2FailingProject.master.elements.map (fun el => el.type) =
      [Proj.ElKind.pattern] ∧
    Proj.c2FailingProject.patterns = [] ∧
    Proj.load Proj.c2FailingProject =
      .thrown "Unable to parse automation clip" :=
  ⟨rfl, rfl, rfl⟩

/-! ## Theorems for claims C3 and C4 -/

/-- C3 (counterexample): the claim says a row is occupied exactly when some
element on it overlaps the proposed interval. The row-0 element spanning
`[3, 4)` overlaps the proposed `[2, 6)` (`3 < 6` and `2 < 3 + 1`), yet the
code reads row 0 as free (`some true`) and places the new clip there —
both the old element and the new clip end up on row 0. -/
theorem c3_counterexample :
    ((3 : ℚ) < 6 ∧ (2 : ℚ) < 3 + 1) ∧
    (Proj.availableRows 1 [⟨.pattern, "p0", 3, 0, 1⟩] 2 6)[0]?
      = some true ∧
    (Proj.createAutomationClip [Proj.Track.create 0]
        [⟨.pattern, "p0", 3, 0, 1⟩] []
        (.instrument ⟨.synth, "i0", "Synth 0"⟩) "volume" 0 2 6).elements.map
      (fun el => el.row) = [0, 0] := by
  have h0 : Proj.hitsInterval 2 6 ⟨.pattern, "p0", 3, 0, 1⟩ = false := by
    simp only [Proj.hitsInterval, decide_eq_false_iff_not]
    norm_num
  refine ⟨⟨by norm_num, by norm_num⟩, ?_, ?_⟩
  · simp [Proj.availableRows, h0]
  · simp [Proj.createAutomationClip, Proj.availableRows, h0,
      List.findIdx?_cons]

/-- C3 (amended): `createAutomationClip` treats a row as occupied exactly
when some element on that row has the proposed `start` or `end` strictly
inside its open interval `(time, time + duration)` — an element lying
entirely inside `[start, end)`, or only touching an endpoint, does not
block the row — and on success it places the clip on the lowest-indexed
free row. -/
theorem c3_occupancy_and_lowest_free_row (tracks : List Proj.Track)
    (master : List Proj.PlacedElement) (clips : List Proj.AutomationClip)
    (automatable : Proj.Automatable) (key : String) (v start stop : ℚ) :
    (∀ r : Nat,
      ((Proj.availableRows tracks.length master start stop)[r]?
          = some false ↔
        r < tracks.length ∧ ∃ el ∈ master, el.row = r ∧
          ((el.time < start ∧ start < el.time + el.duration) ∨
            (el.time < stop ∧ stop < el.time + el.duration)))) ∧
    (∀ row : Nat,
      (Proj.availableRows tracks.length master start stop).findIdx?
          (fun b => b) = some row →
        row < tracks.length ∧
        (¬∃ el ∈ master, el.row = row ∧
          Proj.hitsInterval start stop el = true) ∧
        (∀ r' < row, ∃ el ∈ master, el.row = r' ∧
          Proj.hitsInterval start stop el = true) ∧
        ∃ placed, (Proj.createAutomationClip tracks master clips automatable
            key v start stop).elements = master ++ [placed] ∧
          placed.row = row ∧ placed.time = start) := by
  constructor
  · intro r
    rw [Proj.availableRows_false_iff]
    constructor
    · rintro ⟨hr, w, hw, hrw, hhw⟩
      refine ⟨hr, w, hw, hrw, ?_⟩
      simpa [Proj.hitsInterval] using hhw
    · rintro ⟨hr, w, hw, hrw, hprop⟩
      refine ⟨hr, w, hw, hrw, ?_⟩
      simpa [Proj.hitsInterval] using hprop
  · intro row h
    have hlen := Proj.availableRows_length tracks.length master start stop
    rcases List.findIdx?_eq_some_iff_findIdx_eq.mp h with ⟨hlt, hfi⟩
    rcases (List.findIdx_eq hlt).mp hfi with ⟨hrow_true, hbefore⟩
    have hrown : row < tracks.length := hlen ▸ hlt
    refine ⟨hrown, ?_, ?_, ?_⟩
    · rw [← Proj.availableRows_true_iff tracks.length master start stop row
        hrown]
      rw [List.getElem?_eq_getElem hlt]
      simpa using hrow_true
    · intro r' hr'
      have hfalse := hbefore r' hr'
      have hq : (Proj.availableRows tracks.length master start stop)[r']?
          = some false := by
        rw [List.getElem?_eq_getElem (Nat.lt_trans hr' hlt)]
        simpa using hfalse
      exact ((Proj.availableRows_false_iff tracks.length master start stop
        r').mp hq).2
    · unfold Proj.createAutomationClip
      rw [h]
      exact ⟨_, rfl, rfl, rfl⟩

/-- C3 witness: the spec's scenario — rows 0 and 1 hold elements spanning
`[1, 5)`, the clip is proposed over `[2, 6)` with three tracks — instantiates
both parts: the occupancy reading of row 0, and selection of row 2 as the
lowest free row. -/
theorem c3_occupancy_and_lowest_free_row_witness :
    ((Proj.availableRows Proj.scenarioTracks.length Proj.scenarioEls 2 6)[0]?
        = some false ↔
      0 < Proj.scenarioTracks.length ∧ ∃ el ∈ Proj.scenarioEls,
        el.row = 0 ∧
          ((el.time < 2 ∧ 2 < el.time + el.duration) ∨
            (el.time < 6 ∧ 6 < el.time + el.duration))) ∧
    (2 < Proj.scenarioTracks.length ∧
      (¬∃ el ∈ Proj.scenarioEls, el.row = 2 ∧
        Proj.hitsInterval 2 6 el = true) ∧
      (∀ r' < 2, ∃ el ∈ Proj.scenarioEls, el.row = r' ∧
        Proj.hitsInterval 2 6 el = true) ∧
      ∃ placed, (Proj.createAutomationClip Proj.scenarioTracks
          Proj.scenarioEls [] (.instrument ⟨.synth, "i0", "Synth 0"⟩)
          "volume" 0 2 6).elements = Proj.scenarioEls ++ [placed] ∧
        placed.row = 2 ∧ placed.time = 2) :=
  ⟨(c3_occupancy_and_lowest_free_row Proj.scenarioTracks Proj.scenarioEls []
      (.instrument ⟨.synth, "i0", "Synth 0"⟩) "volume" 0 2 6).1 0,
   (c3_occupancy_and_lowest_free_row Proj.scenarioTracks Proj.scenarioEls []
      (.instrument ⟨.synth, "i0", "Synth 0"⟩) "volume" 0 2 6).2 2 (by
        have h1 : Proj.hitsInterval 2 6
            (⟨.pattern, "e0", 1, 0, 4⟩ : Proj.PlacedElement) = true := by
          simp only [Proj.hitsInterval, decide_eq_true_eq]
          norm_num
        have h2 : Proj.hitsInterval 2 6
            (⟨.pattern, "e1", 1, 1, 4⟩ : Proj.PlacedElement) = true := by
          simp only [Proj.hitsInterval, decide_eq_true_eq]
          norm_num
        have hav : Proj.availableRows Proj.scenarioTracks.length
            Proj.scenarioEls 2 6 = [false, false, true] := by
          simp [Proj.availableRows, Proj.scenarioEls, Proj.scenarioTracks,
            h1, h2, List.replicate]
        rw [hav]
        decide)⟩

/-- C4: when `createAutomationClip` finds no free row it reports the
warning `'Unable to create automation clip'` and performs no mutation —
the automation-clip collection and the playlist's elements are returned
unchanged (atomic failure); when a row is found it appends exactly one clip
and one placed element and reports nothing. -/
theorem c4_atomic_failure_or_single_append (tracks : List Proj.Track)
    (master : List Proj.PlacedElement) (clips : List Proj.AutomationClip)
    (automatable : Proj.Automatable) (key : String) (v start stop : ℚ) :
    ((Proj.availableRows tracks.length master start stop).findIdx?
        (fun b => b) = none →
      Proj.createAutomationClip tracks master clips automatable key v start
        stop = ⟨clips, master, ["Unable to create automation clip"]⟩) ∧
    (∀ row, (Proj.availableRows tracks.length master start stop).findIdx?
        (fun b => b) = some row →
      ∃ c p, Proj.createAutomationClip tracks master clips automatable key v
        start stop = ⟨clips ++ [c], master ++ [p], []⟩) := by
  constructor
  · intro h
    unfold Proj.createAutomationClip
    rw [h]
  · intro row h
    unfold Proj.createAutomationClip
    rw [h]
    exact ⟨_, _, rfl⟩

/-- C4 witness: with zero tracks the call leaves the one-element playlist
and one-clip collection untouched and warns; with one free track and an
empty playlist it appends exactly one clip and one element. -/
theorem c4_atomic_failure_or_single_append_witness :
    (Proj.createAutomationClip [] [⟨.pattern, "m0", 0, 0, 1⟩]
        [Proj.AutomationClip.create 1 0 .channel "c0" "pan"]
        (.instrument ⟨.synth, "i0", "Synth 0"⟩) "pan" 0 0 1 =
      ⟨[Proj.AutomationClip.create 1 0 .channel "c0" "pan"],
        [⟨.pattern, "m0", 0, 0, 1⟩],
        ["Unable to create automation clip"]⟩) ∧
    (∃ c p, Proj.createAutomationClip [Proj.Track.create 0] [] []
        (.instrument ⟨.synth, "i0", "Synth 0"⟩) "pan" 0 0 1 =
      ⟨[] ++ [c], [] ++ [p], []⟩) :=
  ⟨(c4_atomic_failure_or_single_append [] [⟨.pattern, "m0", 0, 0, 1⟩]
      [Proj.AutomationClip.create 1 0 .channel "c0" "pan"]
      (.instrument ⟨.synth, "i0", "Synth 0"⟩) "pan" 0 0 1).1 (by
        have hav : Proj.availableRows ([] : List Proj.Track).length
            [⟨.pattern, "m0", 0, 0, 1⟩] 0 1 = [] := by
          simp [Proj.availableRows, List.replicate]
        rw [hav]
        decide),
   (c4_atomic_failure_or_single_append [Proj.Track.create 0] [] []
      (.instrument ⟨.synth, "i0", "Synth 0"⟩) "pan" 0 0 1).2 0 (by
        have hav : Proj.availableRows [Proj.Track.create 0].length
            ([] : List Proj.PlacedElement) 0 1 = [true] := by
          simp [Proj.availableRows, List.replicate]
        rw [hav]
        decide)⟩

/-! ## Theorem for claim C5 -/

/-- C5: removing instruments removes, in every pattern, exactly the scores
whose instrument is among the removed ones (all others survive, in order);
removing patterns/samples/automation clips removes from the master playlist
exactly the elements of that kind referencing a removed entity. -/
theorem c5_cascading_deletion_exact (patterns : List Proj.Pattern)
    (deleted : List Proj.Instrument) (ty : Proj.ElKind)
    (removedIds : List String) (elements : List Proj.PlacedElement) :
    Proj.removeScoresForInstruments deleted patterns =
      patterns.map (fun pat =>
        Proj.Pattern.mk pat.id pat.name
          (pat.scores.filter (fun s => !(deleted.contains s.instrument)))) ∧
    Proj.removeElements ty removedIds elements =
      elements.filter
        (fun el => !(el.type == ty && removedIds.contains el.refId)) := by
  constructor
  · simp only [Proj.removeScoresForInstruments, Proj.spliceEach_collectIdxs]
  · unfold Proj.removeElements
    rw [Proj.spliceEach_collectIdxs]

/-! ## Theorem for claim C10 -/

/-- C10: every error result of `load` carries the fallback `emptyProject()`,
which has bpm 120, 4 steps per beat, 4 beats per measure, an empty name,
exactly one pattern, exactly one synth instrument, exactly 10 channels,
exactly 21 tracks, no samples, no automation clips, and an empty master
playlist. -/
theorem c10_error_fallback_is_empty (i : Proj.IProject) (m : String)
    (p : Proj.LoadedProject) (h : Proj.load i = .error m p) :
    p = Proj.emptyProject ∧ p.bpm = 120 ∧ p.stepsPerBeat = 4 ∧
    p.beatsPerMeasure = 4 ∧ p.name = "" ∧ p.patterns.length = 1 ∧
    p.instruments.map (fun ins => ins.instrument) = [Proj.InstrKind.synth] ∧
    p.channels.length = 10 ∧ p.tracks.length = 21 ∧ p.samples = [] ∧
    p.automationClips = [] ∧ p.master.elements = [] := by
  have hp : p = Proj.emptyProject := by
    simp only [Proj.load] at h
    split at h
    · rw [Proj.LoadResult.error.injEq] at h
      exact h.2.symm
    · split at h
      · exact Proj.LoadResult.noConfusion h
      · split at h
        · rw [Proj.LoadResult.error.injEq] at h
          exact h.2.symm
        · exact Proj.LoadResult.noConfusion h
  subst hp
  exact ⟨rfl, rfl, rfl, rfl, rfl, rfl, rfl, rfl, rfl, rfl, rfl, rfl⟩

/-- C10 witness: a project with a dangling score reference makes `load`
fail, and the carried fallback is `emptyProject` with all the stated
fields. -/
theorem c10_error_fallback_is_empty_witness :
    Proj.emptyProject = Proj.emptyProject ∧
    Proj.emptyProject.bpm = 120 ∧ Proj.emptyProject.stepsPerBeat = 4 ∧
    Proj.emptyProject.beatsPerMeasure = 4 ∧ Proj.emptyProject.name = "" ∧
    Proj.emptyProject.patterns.length = 1 ∧
    Proj.emptyProject.instruments.map (fun ins => ins.instrument)
      = [Proj.InstrKind.synth] ∧
    Proj.emptyProject.channels.length = 10 ∧
    Proj.emptyProject.tracks.length = 21 ∧
    Proj.emptyProject.samples = [] ∧
    Proj.emptyProject.automationClips = [] ∧
    Proj.emptyProject.master.elements = [] :=
  c10_error_fallback_is_empty Proj.c10ErrorProject
    "Instrument from score s0 was not found in instrument list."
    Proj.emptyProject rfl

/-! ## Theorems for claims C6, C7, C8 -/

/-- C6 (counterexample): the claim says that after `Element.remove` the
`eventId` field is cleared. On the concrete note holding event id 5,
`remove` leaves the field set to `some 5`, not cleared. -/
theorem c6_counterexample :
    ¬ ((SB.Note.remove ⟨0, 1, 0, some 5⟩ ⟨6, [5]⟩).1.eventId = none) := by
  decide

/-- C6 (amended): an Element holds at most one scheduled-event id at a time
(the single optional `eventId` field), and `Element.remove` cancels that
event on the transport — afterwards the id designates no live scheduled
event — but the `eventId` field itself keeps its stale value; it is not
cleared. -/
theorem c6_remove_clears_schedule (e : SB.Note) (t : SB.Transport) (id : Nat)
    (h : e.eventId = some id) :
    id ∉ ((e.remove t).2.live) ∧ (e.remove t).1.eventId = e.eventId := by
  unfold SB.Note.remove
  rw [h]
  refine ⟨?_, h⟩
  simp [SB.Transport.clear, List.mem_filter]

/-- C6 witness: concrete instance of `c6_remove_clears_schedule`. -/
theorem c6_remove_clears_schedule_witness :
    (5 : Nat) ∉ ((SB.Note.remove ⟨0, 1, 0, some 5⟩ ⟨6, [5]⟩).2.live) ∧
    (SB.Note.remove ⟨0, 1, 0, some 5⟩ ⟨6, [5]⟩).1.eventId = some 5 :=
  c6_remove_clears_schedule ⟨0, 1, 0, some 5⟩ ⟨6, [5]⟩ 5 rfl

/-- C7 (counterexample): the claim says `Score.init` fails with a
`ReferenceError` when the instrument id is absent. On a concrete score with
an empty lookup it fails with a plain `Error` (`throw Error(...)`), whose
constructor name is `"Error"`, not `"ReferenceError"`. -/
theorem c7_counterexample :
    SB.Score.init ⟨"s0", "i0", none⟩ [] =
      .error ⟨"Error", "i0 not in lookup"⟩ ∧
    "Error" ≠ "ReferenceError" := by
  exact ⟨rfl, by decide⟩

/-- C7 (amended): when the score's `instrumentId` is absent from the lookup,
`Score.init` fails with a plain `Error` (message `"<id> not in lookup"`) —
not a `ReferenceError`; when the id is present, `init` succeeds and binds
the score's `instrument` to the looked-up instrument. -/
theorem c7_init_error_or_bind (s : SB.Score)
    (lookup : List (String × SB.Instrument)) :
    (lookup.lookup s.instrumentId = none →
      s.init lookup = .error ⟨"Error", s.instrumentId ++ " not in lookup"⟩) ∧
    (∀ i, lookup.lookup s.instrumentId = some i →
      s.init lookup = .ok { s with instrument := some i }) := by
  constructor
  · intro h
    unfold SB.Score.init
    rw [h]
  · intro i h
    unfold SB.Score.init
    rw [h]

/-- C7 witness: concrete instances of both branches of
`c7_init_error_or_bind`. -/
theorem c7_init_error_or_bind_witness :
    (SB.Score.init ⟨"s0", "i0", none⟩ [] =
      .error ⟨"Error", "i0 not in lookup"⟩) ∧
    (SB.Score.init ⟨"s1", "i1", none⟩ [("i1", ⟨"i1", "Synth 0"⟩)] =
      .ok ⟨"s1", "i1", some ⟨"i1", "Synth 0"⟩⟩) :=
  ⟨(c7_init_error_or_bind ⟨"s0", "i0", none⟩ []).1 rfl,
   (c7_init_error_or_bind ⟨"s1", "i1", none⟩
      [("i1", ⟨"i1", "Synth 0"⟩)]).2 ⟨"i1", "Synth 0"⟩ rfl⟩

/-- C8: `AutomationClip.create(length, signal, ...)` yields a clip whose
points list consists of exactly the two points `(0, signal.value)` and
`(length, signal.value)` — in particular, length 4 and value 0.5 give
exactly `(0, 0.5)` and `(4, 0.5)`. -/
theorem c8_create_two_points (L v : ℚ) (context contextId : String) :
    ((SB.AutomationClip.create L v context contextId).points.map
      (fun p => (p.time, p.value))) = [(0, v), (L, v)] := by
  rfl

end Vuesic
